import Mathlib

/-!
Verification development for the Amazon GameLift integration backend.

Part 1 embeds, declaratively, the infrastructure stack defined in
`lib/amazon_gamelift_integration-backend.ts`: the SNS topic resource policy,
the IAM policy statements created by the stack, the JWT authorizer, the
HTTP route with its authorization scopes, and the matchmaking Lambda's
environment and timeout.

Part 2 models the runtime request/eventing core (token validation,
authorization gate, matchmaking dispatcher, event relay, gateway facade).
The handler code for these components is not part of the embedded sources
(only the stack that deploys them is), so each such definition is modelled
from the specification document and carries a doc comment saying so.
-/

namespace GameLiftBackend

/-- IAM policy effect, as in `iam.Effect` of the CDK stack. -/
inductive Effect where
  | allow
  | deny
deriving DecidableEq, Repr

/-- An IAM policy statement as constructed by `new iam.PolicyStatement({...})`
in the stack: a list of action names, an effect (ALLOW when unspecified),
the principals the statement applies to (empty for identity policies),
and the resource ARNs. -/
structure PolicyStatement where
  actions : List String
  effect : Effect
  principals : List String
  resources : List String
deriving DecidableEq, Repr

/-- The shared basic Lambda logging policy (`lambdaBasicPolicy` in the stack):
logs actions on all resources, no principals (identity policy). -/
def lambdaBasicPolicy : PolicyStatement :=
  { actions := ["logs:CreateLogGroup", "logs:CreateLogStream", "logs:PutLogEvents"]
    effect := .allow
    principals := []
    resources := ["*"] }

/-- The logs-retention management policy (`logsManagementPolicy` in the stack). -/
def logsManagementPolicy : PolicyStatement :=
  { actions := ["logs:DeleteRetentionPolicy", "logs:PutRetentionPolicy"]
    effect := .allow
    principals := []
    resources := ["*"] }

/-- The statement added to `request_matchmaking_function_role` granting
`gamelift:StartMatchmaking` on all resources. -/
def gameliftStartMatchmakingPolicy : PolicyStatement :=
  { actions := ["gamelift:StartMatchmaking"]
    effect := .allow
    principals := []
    resources := ["*"] }

/-- The resource policy attached to the `FlexMatchEventsTopic` SNS topic by
`topic.addToResourcePolicy`: a single statement allowing
`gamelift.amazonaws.com` to `sns:Publish` to the topic's own ARN.
The topic ARN is a deploy-time token, so it is a parameter here. -/
def flexMatchEventsTopicPolicy (topicArn : String) : List PolicyStatement :=
  [ { actions := ["sns:Publish"]
      effect := .allow
      principals := ["gamelift.amazonaws.com"]
      resources := [topicArn] } ]

/-- The Lambda resource-policy statement created by
`request_matchmaking.addPermission`: API Gateway may invoke the
matchmaking function. -/
def invokeRequestMatchmakingPermission (functionArn : String) : PolicyStatement :=
  { actions := ["lambda:InvokeFunction"]
    effect := .allow
    principals := ["apigateway.amazonaws.com"]
    resources := [functionArn] }

/-- Every IAM policy statement the stack constructs, identity policies and
resource policies alike, with the deploy-time ARNs as parameters. -/
def stackPolicyStatements (topicArn functionArn : String) : List PolicyStatement :=
  [ lambdaBasicPolicy
    , logsManagementPolicy
    , gameliftStartMatchmakingPolicy
    , invokeRequestMatchmakingPermission functionArn ]
  ++ flexMatchEventsTopicPolicy topicArn

/-- The JWT authorizer configuration (`BackendAuthorizer` in the stack):
authorizer type JWT, accepted audience list `["gamebackend"]`, issuer taken
from the stack property `issuerEndpointUrl`. -/
structure CfnAuthorizerJwt where
  authorizerType : String
  audience : List String
  issuer : String
deriving DecidableEq, Repr

/-- The `BackendAuthorizer` construct of the stack. -/
def backendAuthorizer (issuerEndpointUrl : String) : CfnAuthorizerJwt :=
  { authorizerType := "JWT"
    audience := ["gamebackend"]
    issuer := issuerEndpointUrl }

/-- An HTTP API route with JWT authorization, as in `apigateway.CfnRoute`. -/
structure CfnRouteJwt where
  routeKey : String
  authorizationType : String
  authorizationScopes : List String
deriving DecidableEq, Repr

/-- The `RequestMatchmakingRoute` construct of the stack: route key
`GET /request-matchmaking`, JWT authorization, accepted scopes
`["guest", "authenticated"]`. -/
def requestMatchmakingRoute : CfnRouteJwt :=
  { routeKey := "GET /request-matchmaking"
    authorizationType := "JWT"
    authorizationScopes := ["guest", "authenticated"] }

/-- The environment variables the stack sets on the `RequestMatchmaking`
Lambda function: the fixed matchmaking configuration name. -/
def requestMatchmakingEnvironment : List (String × String) :=
  [("MATCHMAKING_CONFIGURATION", "SampleFlexMatchConfiguration")]

/-- The timeout, in seconds, the stack configures on the `RequestMatchmaking`
Lambda function (`Duration.seconds(15)`). -/
def requestMatchmakingTimeoutSeconds : Nat := 15

/-- Modelled from the spec: the ticket lifecycle states. QUEUED is initial;
MATCHED, CANCELLED, TIMED_OUT and FAILED are terminal. -/
inductive TicketState where
  | QUEUED
  | SEARCHING
  | MATCHED
  | CANCELLED
  | TIMED_OUT
  | FAILED
deriving DecidableEq, Repr, Fintype

/-- Modelled from the spec: the terminal ticket states. -/
def TicketState.isTerminal : TicketState → Bool
  | .MATCHED => true
  | .CANCELLED => true
  | .TIMED_OUT => true
  | .FAILED => true
  | .QUEUED => false
  | .SEARCHING => false

/-- Modelled from the spec: the edges of the ticket transition graph.
QUEUED may step to SEARCHING or directly to CANCELLED, TIMED_OUT or FAILED;
SEARCHING may step to any of the four terminal states; terminal states have
no outgoing edges. -/
def canStep : TicketState → TicketState → Bool
  | .QUEUED, .SEARCHING => true
  | .QUEUED, .CANCELLED => true
  | .QUEUED, .TIMED_OUT => true
  | .QUEUED, .FAILED => true
  | .SEARCHING, .MATCHED => true
  | .SEARCHING, .CANCELLED => true
  | .SEARCHING, .TIMED_OUT => true
  | .SEARCHING, .FAILED => true
  | _, _ => false

/-- The list of all ticket states, used to compute reachability. -/
def allTicketStates : List TicketState :=
  [.QUEUED, .SEARCHING, .MATCHED, .CANCELLED, .TIMED_OUT, .FAILED]

/-- Modelled from the spec: strict (one-or-more step) reachability in the
ticket transition graph. Since the graph has depth two, the transitive
closure is one step or two steps through an intermediate state. -/
def reachableFrom (a b : TicketState) : Bool :=
  canStep a b || allTicketStates.any fun m => canStep a m && canStep m b

/-- Modelled from the spec: a lifecycle event produced by the matchmaking
engine, one per state transition. -/
structure MatchEvent where
  ticketId : String
  state : TicketState
  occurredAt : Nat
deriving DecidableEq, Repr

/-- Modelled from the spec: how the Event Relay applies an event's named
state to a ticket's current recorded state. An event naming a state not
reachable from the current recorded state is dropped (the state is kept);
otherwise the recorded state becomes the event's state. -/
def applyState (current incoming : TicketState) : TicketState :=
  if reachableFrom current incoming then incoming else current

/-- Modelled from the spec: applying one `MatchEvent` to a ticket's
recorded state. -/
def applyEvent (current : TicketState) (e : MatchEvent) : TicketState :=
  applyState current e.state

/-- Modelled from the spec: the trace of recorded states of a single ticket
as a sequence of events is applied, starting from the initial state QUEUED. -/
def ticketTrace (events : List MatchEvent) : List TicketState :=
  List.scanl applyEvent TicketState.QUEUED events

/-- Modelled from the spec: the Event Relay's ticket-state table, a list of
(ticketId, recorded state) pairs. -/
abbrev RelayTable : Type := List (String × TicketState)

/-- Modelled from the spec: the Event Relay's `onEvent` handler. The event
is applied to the ticket it names, under the transition rules of
`applyState`; events for unknown tickets are dropped. -/
def onEvent (table : RelayTable) (e : MatchEvent) : RelayTable :=
  match table with
  | [] => []
  | (tid, s) :: rest =>
    if tid = e.ticketId then (tid, applyState s e.state) :: rest
    else (tid, s) :: onEvent rest e

/-- Modelled from the spec: the authorization/validation error taxonomy. -/
inductive AuthError where
  | Malformed
  | Expired
  | IssuerMismatch
  | AudienceMismatch
  | SignatureInvalid
  | InsufficientScope
deriving DecidableEq, Repr

/-- Modelled from the spec: the identity extracted from a valid credential. -/
structure Identity where
  subject : String
  scopes : List String
deriving DecidableEq, Repr

/-- Modelled from the spec: the claims carried by a parseable credential. -/
structure CredentialClaims where
  subject : String
  issuer : String
  audience : List String
  scopes : List String
  expiry : Nat
deriving DecidableEq, Repr

/-- Modelled from the spec: a bearer credential as seen by the Token
Validator: either unparsable, or parsed claims together with whether its
cryptographic signature verifies against the issuer's keys. -/
inductive Credential where
  | malformed
  | parsed (claims : CredentialClaims) (signatureValid : Bool)
deriving DecidableEq, Repr

/-- Modelled from the spec: the Token Validator configuration, the expected
issuer and the expected audience value. -/
structure ValidatorConfig where
  expectedIssuer : String
  expectedAudience : String
deriving DecidableEq, Repr

/-- Modelled from the spec: `validate(credential) -> Identity | fails(AuthError)`.
The failure conditions are checked in the order the spec lists them:
Malformed if the credential cannot be parsed, Expired if `now >= expiry`
(so expiry is decided before the signature is even considered),
IssuerMismatch / AudienceMismatch on mismatch, SignatureInvalid if
verification fails. -/
def validate (cfg : ValidatorConfig) (now : Nat) (cred : Credential) :
    Except AuthError Identity :=
  match cred with
  | .malformed => .error .Malformed
  | .parsed claims signatureValid =>
    if claims.expiry ≤ now then .error .Expired
    else if claims.issuer ≠ cfg.expectedIssuer then .error .IssuerMismatch
    else if ¬ claims.audience.contains cfg.expectedAudience then .error .AudienceMismatch
    else if ¬ signatureValid then .error .SignatureInvalid
    else .ok { subject := claims.subject, scopes := claims.scopes }

/-- Modelled from the spec: the Authorization Gate for an operation with a
disjunctive accepted-scope list, as declared on the route: the identity
passes if it holds at least one accepted scope, and fails with
InsufficientScope otherwise. -/
def authorize (identity : Identity) (acceptedScopes : List String) :
    Except AuthError Unit :=
  if identity.scopes.any fun s => acceptedScopes.contains s then .ok ()
  else .error .InsufficientScope

/-- Modelled from the spec: the dispatch error taxonomy. -/
inductive DispatchError where
  | EngineUnavailable
  | InvalidConfiguration
  | RateLimited
deriving DecidableEq, Repr

/-- Modelled from the spec: a ticket record tracked by the dispatcher and
the relay, keyed by subject and matchmaking configuration for the
idempotency check. -/
structure TicketRecord where
  ticketId : String
  subject : String
  configurationId : String
  state : TicketState
deriving DecidableEq, Repr

/-- Modelled from the spec: the first in-flight (non-terminal) ticket for a
given subject and matchmaking configuration, if any. -/
def findInFlight (table : List TicketRecord) (subject configurationId : String) :
    Option TicketRecord :=
  table.find? fun t =>
    t.subject = subject && t.configurationId = configurationId
      && !t.state.isTerminal

/-- Modelled from the spec: what the external matchmaking engine replies to
a start-matchmaking call. -/
inductive EngineReply where
  | accepted (ticketId : String)
  | throttled
  | unknownConfiguration
  | transportFailure
deriving DecidableEq, Repr

/-- Modelled from the spec: one behaviour of the engine on a start call:
its reply together with how long, in milliseconds, the call takes. -/
structure EngineOutcome where
  reply : EngineReply
  latencyMs : Nat
deriving DecidableEq, Repr

/-- Modelled from the spec: the outcome of one `dispatch` call: the result
returned to the caller, the updated ticket table, how long the dispatcher
blocked on the engine (milliseconds), and the arguments
(configurationId, player) of the engine start call, if one was made. -/
structure DispatchOutcome where
  result : Except DispatchError TicketRecord
  table : List TicketRecord
  elapsedMs : Nat
  engineStartArgs : Option (String × String)
deriving Repr

/-- Modelled from the spec: `dispatch(identity, request) -> MatchTicket |
fails(DispatchError)`. If an in-flight ticket already exists for the same
subject and configuration, it is returned and no engine call is made.
Otherwise the engine's start operation is called; the dispatcher waits at
most `timeoutMs` and fails with EngineUnavailable if the call takes longer,
and otherwise maps the reply: accepted gives a new QUEUED ticket recorded
in the table, throttled gives RateLimited, an unknown configuration gives
InvalidConfiguration, a transport failure gives EngineUnavailable. -/
def dispatch (table : List TicketRecord) (subject configurationId : String)
    (engine : EngineOutcome) (timeoutMs : Nat) : DispatchOutcome :=
  match findInFlight table subject configurationId with
  | some t => { result := .ok t, table := table, elapsedMs := 0, engineStartArgs := none }
  | none =>
    let args := some (configurationId, subject)
    if timeoutMs < engine.latencyMs then
      { result := .error .EngineUnavailable, table := table
        elapsedMs := timeoutMs, engineStartArgs := args }
    else
      match engine.reply with
      | .accepted tid =>
        let t : TicketRecord :=
          { ticketId := tid, subject := subject
            configurationId := configurationId, state := .QUEUED }
        { result := .ok t, table := t :: table
          elapsedMs := engine.latencyMs, engineStartArgs := args }
      | .throttled =>
        { result := .error .RateLimited, table := table
          elapsedMs := engine.latencyMs, engineStartArgs := args }
      | .unknownConfiguration =>
        { result := .error .InvalidConfiguration, table := table
          elapsedMs := engine.latencyMs, engineStartArgs := args }
      | .transportFailure =>
        { result := .error .EngineUnavailable, table := table
          elapsedMs := engine.latencyMs, engineStartArgs := args }

/-- Modelled from the spec: the gateway error, wrapping the first failing
component's error. -/
inductive GatewayError where
  | auth (e : AuthError)
  | dispatchFailed (e : DispatchError)
deriving DecidableEq, Repr

/-- Modelled from the spec: the HTTP-style status class of a gateway error:
401 for authentication errors, 403 for InsufficientScope, 429 for
RateLimited, 502 for EngineUnavailable, 400 for Malformed and
InvalidConfiguration. -/
def GatewayError.status : GatewayError → Nat
  | .auth .Malformed => 400
  | .auth .InsufficientScope => 403
  | .auth _ => 401
  | .dispatchFailed .RateLimited => 429
  | .dispatchFailed .EngineUnavailable => 502
  | .dispatchFailed .InvalidConfiguration => 400

/-- Modelled from the spec: the configuration the deployed gateway runs
with: expected issuer and audience for token validation, the matchmaking
configuration identifier, and the engine call timeout. -/
structure GatewayConfig where
  expectedIssuer : String
  expectedAudience : String
  matchmakingConfigurationId : String
  engineTimeoutMs : Nat
deriving DecidableEq, Repr

/-- Modelled from the spec: the observable outcome of one gateway request:
the response, the updated ticket table, and whether the Matchmaking
Dispatcher was invoked at all. -/
structure GatewayResult where
  response : Except GatewayError TicketRecord
  table : List TicketRecord
  dispatcherInvoked : Bool
  engineStartArgs : Option (String × String)
deriving Repr

/-- Modelled from the spec: the Gateway Facade's
`requestMatchmaking(rawCredential, request)`: Token Validator, then
Authorization Gate against the route's declared scopes, then Matchmaking
Dispatcher. The caller-supplied player attributes do not take part in
selecting the matchmaking configuration, which comes from the gateway
configuration. -/
def requestMatchmaking (gw : GatewayConfig) (now : Nat) (cred : Credential)
    (playerAttributes : List (String × String)) (table : List TicketRecord)
    (engine : EngineOutcome) : GatewayResult :=
  match validate { expectedIssuer := gw.expectedIssuer, expectedAudience := gw.expectedAudience }
      now cred with
  | .error e =>
    { response := .error (.auth e), table := table
      dispatcherInvoked := false, engineStartArgs := none }
  | .ok identity =>
    match authorize identity requestMatchmakingRoute.authorizationScopes with
    | .error e =>
      { response := .error (.auth e), table := table
        dispatcherInvoked := false, engineStartArgs := none }
    | .ok _ =>
      let d := dispatch table identity.subject gw.matchmakingConfigurationId
        engine gw.engineTimeoutMs
      { response := (d.result.mapError .dispatchFailed)
        table := d.table
        dispatcherInvoked := true
        engineStartArgs := d.engineStartArgs }

/-- The gateway configuration the stack deploys: audience from the
`BackendAuthorizer`, the matchmaking configuration from the Lambda's
environment, and the engine timeout from the Lambda's configured timeout.
The issuer endpoint URL is a stack property, so it is a parameter. -/
def deployedGateway (issuerEndpointUrl : String) : GatewayConfig :=
  { expectedIssuer := issuerEndpointUrl
    expectedAudience :=
      ((backendAuthorizer issuerEndpointUrl).audience.headD "")
    matchmakingConfigurationId :=
      (((requestMatchmakingEnvironment).lookup "MATCHMAKING_CONFIGURATION").getD "")
    engineTimeoutMs := requestMatchmakingTimeoutSeconds * 1000 }

/-! Helper lemmas about the ticket state machine. -/

/-- Applying an event's state either keeps the recorded state or moves it
to a state reachable from it. -/
theorem applyState_eq_or_reachable (s t : TicketState) :
    s = applyState s t ∨ reachableFrom s (applyState s t) = true := by
  revert s t
  decide

/-- Applying the same state twice is the same as applying it once. -/
theorem applyState_idem (s t : TicketState) :
    applyState (applyState s t) t = applyState s t := by
  revert s t
  decide

/-- An event naming a state not reachable from the current one is dropped. -/
theorem applyState_drop (s t : TicketState) (h : reachableFrom s t = false) :
    applyState s t = s := by
  simp [applyState, h]

/-- Every ticket state is QUEUED or reachable from QUEUED. -/
theorem reachableFrom_queued (s : TicketState) :
    s = TicketState.QUEUED ∨ reachableFrom TicketState.QUEUED s = true := by
  revert s
  decide

/-- The head of a `scanl` trace is its starting value. -/
theorem head?_scanl {α β : Type} (f : β → α → β) (b : β) (l : List α) :
    (List.scanl f b l).head? = some b := by
  cases l <;> simp [List.scanl]

/-- Consecutive entries of a ticket trace are equal or related by
reachability, whatever the starting state. -/
theorem chain_scanl_applyEvent (events : List MatchEvent) (b : TicketState) :
    List.Chain' (fun a c => a = c ∨ reachableFrom a c = true)
      (List.scanl applyEvent b events) := by
  induction events generalizing b with
  | nil => simp [List.scanl]
  | cons e es ih =>
    rw [List.scanl, List.chain'_cons']
    refine ⟨?_, ih (applyEvent b e)⟩
    intro y hy
    rw [head?_scanl, Option.mem_def, Option.some.injEq] at hy
    subst hy
    exact applyState_eq_or_reachable b e.state

/-! Claim theorems. -/

/-- C5: for every sequence of `MatchEvent`s applied to a ticket, every
recorded state in the trace is QUEUED or reachable from QUEUED via the
transition graph, consecutive recorded states never regress (each step is
either a no-op or moves along reachability), and an event naming a state
not reachable from the current recorded state is dropped, not applied. -/
theorem C5_state_machine_safety (events : List MatchEvent) :
    (∀ s ∈ ticketTrace events,
      s = TicketState.QUEUED ∨ reachableFrom TicketState.QUEUED s = true) ∧
    List.Chain' (fun a c => a = c ∨ reachableFrom a c = true)
      (ticketTrace events) ∧
    (∀ (current : TicketState) (e : MatchEvent),
      reachableFrom current e.state = false → applyEvent current e = current) := by
  refine ⟨?_, chain_scanl_applyEvent events TicketState.QUEUED, ?_⟩
  · intro s _
    exact reachableFrom_queued s
  · intro current e h
    exact applyState_drop current e.state h

/-- C5 witness: the safety theorem applied to a concrete event sequence; in
particular an event naming QUEUED after SEARCHING has been recorded is
dropped. -/
theorem C5_state_machine_safety_witness :
    applyEvent TicketState.SEARCHING
      { ticketId := "ticket-1", state := TicketState.QUEUED, occurredAt := 7 } =
      TicketState.SEARCHING :=
  (C5_state_machine_safety []).2.2 TicketState.SEARCHING
    { ticketId := "ticket-1", state := TicketState.QUEUED, occurredAt := 7 }
    (by decide)

/-- C6: applying the same `MatchEvent` (same ticketId and state) twice to
the Event Relay's table leaves the table exactly as after the first
application: the state does not double-transition. -/
theorem C6_duplicate_event_idempotent (table : RelayTable) (e : MatchEvent) :
    onEvent (onEvent table e) e = onEvent table e := by
  induction table with
  | nil => rfl
  | cons p rest ih =>
    obtain ⟨tid, s⟩ := p
    by_cases h : tid = e.ticketId
    · simp [onEvent, h, applyState_idem]
    · simp [onEvent, h, ih]

/-- C3: for every parseable credential whose expiry is less than or equal
to the current time, `validate` fails with `AuthError.Expired`, whatever
the signature validity. -/
theorem C3_expired_regardless_of_signature (cfg : ValidatorConfig) (now : Nat)
    (claims : CredentialClaims) (signatureValid : Bool)
    (h : claims.expiry ≤ now) :
    validate cfg now (Credential.parsed claims signatureValid) =
      Except.error AuthError.Expired := by
  simp [validate, h]

/-- C3 witness: a concrete expired credential is rejected as Expired both
with a valid and with an invalid signature. -/
theorem C3_expired_witness :
    validate { expectedIssuer := "https://issuer.example", expectedAudience := "gamebackend" }
      10 (Credential.parsed
        { subject := "player-1", issuer := "https://issuer.example"
          audience := ["gamebackend"], scopes := ["guest"], expiry := 5 } true) =
      Except.error AuthError.Expired ∧
    validate { expectedIssuer := "https://issuer.example", expectedAudience := "gamebackend" }
      10 (Credential.parsed
        { subject := "player-1", issuer := "https://issuer.example"
          audience := ["gamebackend"], scopes := ["guest"], expiry := 5 } false) =
      Except.error AuthError.Expired :=
  ⟨C3_expired_regardless_of_signature _ _ _ _ (by decide),
   C3_expired_regardless_of_signature _ _ _ _ (by decide)⟩

/-- C1: the authorization check for the matchmaking-request route is
disjunctive over its declared scopes "guest" and "authenticated": an
identity holding neither scope fails with InsufficientScope, and an
identity holding at least one of them passes. -/
theorem C1_authorize_disjunctive (identity : Identity) :
    (("guest" ∉ identity.scopes ∧ "authenticated" ∉ identity.scopes) →
      authorize identity requestMatchmakingRoute.authorizationScopes =
        Except.error AuthError.InsufficientScope) ∧
    (("guest" ∈ identity.scopes ∨ "authenticated" ∈ identity.scopes) →
      authorize identity requestMatchmakingRoute.authorizationScopes =
        Except.ok ()) := by
  constructor
  · rintro ⟨hg, ha⟩
    simp [authorize, requestMatchmakingRoute]
    intro x hx
    constructor
    · rintro rfl
      exact hg hx
    · rintro rfl
      exact ha hx
  · intro h
    simp [authorize, requestMatchmakingRoute]
    rcases h with h | h
    · exact ⟨"guest", h, fun hne => absurd rfl hne⟩
    · exact ⟨"authenticated", h, fun _ => rfl⟩

/-- C1 witness: an identity with only the "guest" scope is authorized on
the matchmaking route, and an identity with neither accepted scope is
rejected with InsufficientScope. -/
theorem C1_authorize_disjunctive_witness :
    authorize { subject := "player-1", scopes := ["guest"] }
        requestMatchmakingRoute.authorizationScopes = Except.ok () ∧
    authorize { subject := "player-2", scopes := ["email"] }
        requestMatchmakingRoute.authorizationScopes =
      Except.error AuthError.InsufficientScope :=
  ⟨(C1_authorize_disjunctive { subject := "player-1", scopes := ["guest"] }).2
      (Or.inl (by decide)),
   (C1_authorize_disjunctive { subject := "player-2", scopes := ["email"] }).1
      ⟨by decide, by decide⟩⟩

/-- C7: a valid credential with audience "gamebackend" and scopes
`["guest"]` calling the matchmaking endpoint on the deployed gateway gets a
successful response carrying a ticket in state QUEUED for the configuration
"SampleFlexMatchConfiguration". -/
theorem C7_end_to_end_queued :
    (requestMatchmaking (deployedGateway "https://issuer.example") 10
        (Credential.parsed
          { subject := "player-1", issuer := "https://issuer.example"
            audience := ["gamebackend"], scopes := ["guest"], expiry := 100 } true)
        [] [] { reply := EngineReply.accepted "ticket-1", latencyMs := 5 }).response =
      Except.ok
        { ticketId := "ticket-1", subject := "player-1"
          configurationId := "SampleFlexMatchConfiguration"
          state := TicketState.QUEUED } ∧
    (requestMatchmaking (deployedGateway "https://issuer.example") 10
        (Credential.parsed
          { subject := "player-1", issuer := "https://issuer.example"
            audience := ["gamebackend"], scopes := ["guest"], expiry := 100 } true)
        [] [] { reply := EngineReply.accepted "ticket-1", latencyMs := 5 }).dispatcherInvoked =
      true := by
  constructor
  · rfl
  · rfl

/-- C2 counterexample: a credential whose audience misses the expected
"gamebackend" but which is also expired is rejected with Expired, not with
AudienceMismatch, so the rejection kind claimed by C2 does not hold for
every audience-mismatching request. -/
theorem C2_counterexample :
    (deployedGateway "https://issuer.example").expectedAudience ∉
      (["other-app"] : List String) ∧
    (requestMatchmaking (deployedGateway "https://issuer.example") 1000
        (Credential.parsed
          { subject := "player-1", issuer := "https://issuer.example"
            audience := ["other-app"], scopes := ["guest"], expiry := 500 } true)
        [] [] { reply := EngineReply.accepted "ticket-1", latencyMs := 5 }).response =
      Except.error (GatewayError.auth AuthError.Expired) ∧
    GatewayError.auth AuthError.Expired ≠
      GatewayError.auth AuthError.AudienceMismatch :=
  ⟨by decide, rfl, by decide⟩

/-- C2 (amended): for every request whose parsed credential's audience does
not include the configured expected audience, the request is rejected with
an authentication error and the Matchmaking Dispatcher is never invoked;
the rejection is AudienceMismatch whenever the credential is additionally
unexpired and carries the expected issuer. -/
theorem C2_audience_mismatch_not_dispatched (gw : GatewayConfig) (now : Nat)
    (claims : CredentialClaims) (signatureValid : Bool)
    (playerAttributes : List (String × String)) (table : List TicketRecord)
    (engine : EngineOutcome)
    (hAud : gw.expectedAudience ∉ claims.audience) :
    ((requestMatchmaking gw now (Credential.parsed claims signatureValid)
        playerAttributes table engine).dispatcherInvoked = false) ∧
    (∃ e, (requestMatchmaking gw now (Credential.parsed claims signatureValid)
        playerAttributes table engine).response =
      Except.error (GatewayError.auth e)) ∧
    (now < claims.expiry → claims.issuer = gw.expectedIssuer →
      (requestMatchmaking gw now (Credential.parsed claims signatureValid)
        playerAttributes table engine).response =
        Except.error (GatewayError.auth AuthError.AudienceMismatch)) := by
  by_cases h1 : claims.expiry ≤ now
  · refine ⟨?_, ⟨AuthError.Expired, ?_⟩, ?_⟩
    · simp [requestMatchmaking, validate, h1]
    · simp [requestMatchmaking, validate, h1]
    · intro hlt
      omega
  · by_cases h2 : claims.issuer = gw.expectedIssuer
    · refine ⟨?_, ⟨AuthError.AudienceMismatch, ?_⟩, ?_⟩
      · simp [requestMatchmaking, validate, h1, h2, hAud]
      · simp [requestMatchmaking, validate, h1, h2, hAud]
      · intro _ _
        simp [requestMatchmaking, validate, h1, h2, hAud]
    · refine ⟨?_, ⟨AuthError.IssuerMismatch, ?_⟩, ?_⟩
      · simp [requestMatchmaking, validate, h1, h2]
      · simp [requestMatchmaking, validate, h1, h2]
      · intro _ hiss
        exact absurd hiss h2

/-- C2 witness: a concrete otherwise-valid credential with audience
`["other-app"]` is rejected with AudienceMismatch and the dispatcher is not
invoked. -/
theorem C2_audience_mismatch_witness :
    ((requestMatchmaking (deployedGateway "https://issuer.example") 10
        (Credential.parsed
          { subject := "player-1", issuer := "https://issuer.example"
            audience := ["other-app"], scopes := ["guest"], expiry := 100 } true)
        [] [] { reply := EngineReply.accepted "ticket-1", latencyMs := 5 }).response =
      Except.error (GatewayError.auth AuthError.AudienceMismatch)) ∧
    ((requestMatchmaking (deployedGateway "https://issuer.example") 10
        (Credential.parsed
          { subject := "player-1", issuer := "https://issuer.example"
            audience := ["other-app"], scopes := ["guest"], expiry := 100 } true)
        [] [] { reply := EngineReply.accepted "ticket-1", latencyMs := 5 }).dispatcherInvoked =
      false) := by
  have h := C2_audience_mismatch_not_dispatched (deployedGateway "https://issuer.example")
    10
    { subject := "player-1", issuer := "https://issuer.example"
      audience := ["other-app"], scopes := ["guest"], expiry := 100 }
    true [] [] { reply := EngineReply.accepted "ticket-1", latencyMs := 5 }
    (by decide)
  exact ⟨h.2.2 (by decide) rfl, h.1⟩

/-- C4: dispatch is idempotent per (subject, configuration) while a ticket
is in flight: if a dispatch call returned a ticket, a second dispatch call
for the same subject and configuration on the resulting table returns the
very same ticket, leaves the table unchanged (no duplicate is created), and
makes no engine call. -/
theorem C4_dispatch_idempotent (table : List TicketRecord)
    (subject configurationId : String) (engine1 engine2 : EngineOutcome)
    (timeout1 timeout2 : Nat) (t : TicketRecord)
    (hres : (dispatch table subject configurationId engine1 timeout1).result =
      Except.ok t) :
    dispatch ((dispatch table subject configurationId engine1 timeout1).table)
        subject configurationId engine2 timeout2 =
      { result := Except.ok t
        table := (dispatch table subject configurationId engine1 timeout1).table
        elapsedMs := 0
        engineStartArgs := none } := by
  cases hf : findInFlight table subject configurationId with
  | some t0 =>
    have hd : dispatch table subject configurationId engine1 timeout1 =
        { result := Except.ok t0, table := table, elapsedMs := 0
          engineStartArgs := none } := by
      simp [dispatch, hf]
    rw [hd] at hres ⊢
    simp only [Except.ok.injEq] at hres
    subst hres
    simp [dispatch, hf]
  | none =>
    by_cases ht : timeout1 < engine1.latencyMs
    · have hd : (dispatch table subject configurationId engine1 timeout1).result =
          Except.error DispatchError.EngineUnavailable := by
        simp [dispatch, hf, ht]
      rw [hd] at hres
      exact absurd hres (by simp)
    · cases hr : engine1.reply with
      | accepted tid =>
        have hd : dispatch table subject configurationId engine1 timeout1 =
            { result := Except.ok
                { ticketId := tid, subject := subject
                  configurationId := configurationId, state := TicketState.QUEUED }
              table :=
                { ticketId := tid, subject := subject
                  configurationId := configurationId, state := TicketState.QUEUED } :: table
              elapsedMs := engine1.latencyMs
              engineStartArgs := some (configurationId, subject) } := by
          simp [dispatch, hf, ht, hr]
        rw [hd] at hres ⊢
        simp only [Except.ok.injEq] at hres
        subst hres
        have hff : findInFlight
            ({ ticketId := tid, subject := subject
               configurationId := configurationId
               state := TicketState.QUEUED } :: table) subject configurationId =
            some
              { ticketId := tid, subject := subject
                configurationId := configurationId, state := TicketState.QUEUED } := by
          simp [findInFlight, List.find?, TicketState.isTerminal]
        simp [dispatch, hff]
      | throttled =>
        have hd : (dispatch table subject configurationId engine1 timeout1).result =
            Except.error DispatchError.RateLimited := by
          simp [dispatch, hf, ht, hr]
        rw [hd] at hres
        exact absurd hres (by simp)
      | unknownConfiguration =>
        have hd : (dispatch table subject configurationId engine1 timeout1).result =
            Except.error DispatchError.InvalidConfiguration := by
          simp [dispatch, hf, ht, hr]
        rw [hd] at hres
        exact absurd hres (by simp)
      | transportFailure =>
        have hd : (dispatch table subject configurationId engine1 timeout1).result =
            Except.error DispatchError.EngineUnavailable := by
          simp [dispatch, hf, ht, hr]
        rw [hd] at hres
        exact absurd hres (by simp)

/-- C4 witness: a concrete first dispatch creates a QUEUED ticket and a
retry with the same subject and configuration returns that same ticket with
the table unchanged and no engine call. -/
theorem C4_dispatch_idempotent_witness :
    dispatch ((dispatch [] "player-1" "SampleFlexMatchConfiguration"
          { reply := EngineReply.accepted "ticket-1", latencyMs := 3 } 15000).table)
        "player-1" "SampleFlexMatchConfiguration"
        { reply := EngineReply.accepted "ticket-2", latencyMs := 4 } 15000 =
      { result := Except.ok
          { ticketId := "ticket-1", subject := "player-1"
            configurationId := "SampleFlexMatchConfiguration"
            state := TicketState.QUEUED }
        table := (dispatch [] "player-1" "SampleFlexMatchConfiguration"
          { reply := EngineReply.accepted "ticket-1", latencyMs := 3 } 15000).table
        elapsedMs := 0
        engineStartArgs := none } :=
  C4_dispatch_idempotent [] "player-1" "SampleFlexMatchConfiguration"
    { reply := EngineReply.accepted "ticket-1", latencyMs := 3 }
    { reply := EngineReply.accepted "ticket-2", latencyMs := 4 }
    15000 15000
    { ticketId := "ticket-1", subject := "player-1"
      configurationId := "SampleFlexMatchConfiguration"
      state := TicketState.QUEUED }
    rfl

/-- C8: the dispatcher blocks on the engine at most the configured timeout,
and an engine call that takes longer than the timeout makes dispatch fail
with EngineUnavailable instead of waiting for the reply. -/
theorem C8_engine_call_bounded (table : List TicketRecord)
    (subject configurationId : String) (engine : EngineOutcome) (timeoutMs : Nat) :
    ((dispatch table subject configurationId engine timeoutMs).elapsedMs ≤ timeoutMs) ∧
    (findInFlight table subject configurationId = none →
      timeoutMs < engine.latencyMs →
      dispatch table subject configurationId engine timeoutMs =
        { result := Except.error DispatchError.EngineUnavailable
          table := table
          elapsedMs := timeoutMs
          engineStartArgs := some (configurationId, subject) }) := by
  constructor
  · cases hf : findInFlight table subject configurationId with
    | some t0 => simp [dispatch, hf]
    | none =>
      by_cases ht : timeoutMs < engine.latencyMs
      · simp [dispatch, hf, ht]
      · cases hr : engine.reply <;> simp [dispatch, hf, ht, hr] <;> omega
  · intro hf ht
    simp [dispatch, hf, ht]

/-- C8 witness: a concrete engine call taking 20000 ms against a 15000 ms
timeout fails with EngineUnavailable after exactly the timeout. -/
theorem C8_engine_call_bounded_witness :
    dispatch [] "player-1" "SampleFlexMatchConfiguration"
        { reply := EngineReply.accepted "ticket-1", latencyMs := 20000 } 15000 =
      { result := Except.error DispatchError.EngineUnavailable
        table := []
        elapsedMs := 15000
        engineStartArgs := some ("SampleFlexMatchConfiguration", "player-1") } :=
  (C8_engine_call_bounded [] "player-1" "SampleFlexMatchConfiguration"
    { reply := EngineReply.accepted "ticket-1", latencyMs := 20000 } 15000).2
    rfl (by decide)

/-- The engine start arguments of a dispatch call are either absent (no
engine call was made) or exactly (configurationId, subject). -/
theorem dispatch_engineStartArgs (table : List TicketRecord)
    (subject configurationId : String) (engine : EngineOutcome) (timeoutMs : Nat) :
    (dispatch table subject configurationId engine timeoutMs).engineStartArgs = none ∨
    (dispatch table subject configurationId engine timeoutMs).engineStartArgs =
      some (configurationId, subject) := by
  cases hf : findInFlight table subject configurationId with
  | some t0 =>
    left
    simp [dispatch, hf]
  | none =>
    right
    by_cases ht : timeoutMs < engine.latencyMs
    · simp [dispatch, hf, ht]
    · cases hr : engine.reply <;> simp [dispatch, hf, ht, hr]

/-- C9: whenever the deployed gateway makes an engine start call, the
matchmaking configuration identifier it passes is exactly the fixed value
"SampleFlexMatchConfiguration" from the Lambda's environment, whatever the
caller-supplied credential and player attributes are. -/
theorem C9_fixed_configuration (issuerEndpointUrl : String) (now : Nat)
    (cred : Credential) (playerAttributes : List (String × String))
    (table : List TicketRecord) (engine : EngineOutcome)
    (configurationId player : String)
    (h : (requestMatchmaking (deployedGateway issuerEndpointUrl) now cred
        playerAttributes table engine).engineStartArgs =
      some (configurationId, player)) :
    configurationId = "SampleFlexMatchConfiguration" ∧
    requestMatchmakingEnvironment.lookup "MATCHMAKING_CONFIGURATION" =
      some configurationId := by
  cases hv : validate
      { expectedIssuer := (deployedGateway issuerEndpointUrl).expectedIssuer
        expectedAudience := (deployedGateway issuerEndpointUrl).expectedAudience }
      now cred with
  | error e =>
    simp [requestMatchmaking, hv] at h
  | ok identity =>
    cases ha : authorize identity requestMatchmakingRoute.authorizationScopes with
    | error e =>
      simp [requestMatchmaking, hv, ha] at h
    | ok u =>
      have hargs := dispatch_engineStartArgs table identity.subject
        ((deployedGateway issuerEndpointUrl).matchmakingConfigurationId) engine
        ((deployedGateway issuerEndpointUrl).engineTimeoutMs)
      simp only [requestMatchmaking, hv, ha] at h
      rcases hargs with hn | hs
      · rw [hn] at h
        exact absurd h (by simp)
      · rw [hs] at h
        simp only [Option.some.injEq, Prod.mk.injEq] at h
        have hcfg : configurationId = "SampleFlexMatchConfiguration" := h.1.symm
        refine ⟨hcfg, ?_⟩
        rw [hcfg]
        rfl

/-- C9 witness: the environment's configuration entry matches the
configuration identifier a concrete successful request passed to the
engine. -/
theorem C9_fixed_configuration_witness :
    requestMatchmakingEnvironment.lookup "MATCHMAKING_CONFIGURATION" =
      some "SampleFlexMatchConfiguration" :=
  (C9_fixed_configuration "https://issuer.example" 10
    (Credential.parsed
      { subject := "player-1", issuer := "https://issuer.example"
        audience := ["gamebackend"], scopes := ["guest"], expiry := 100 } true)
    [] [] { reply := EngineReply.accepted "ticket-1", latencyMs := 5 }
    "SampleFlexMatchConfiguration" "player-1" rfl).2

/-- C10: the FlexMatch events topic's resource policy is exactly one ALLOW
statement granting sns:Publish on the topic's own ARN to the single
principal gamelift.amazonaws.com, and no other policy statement created by
the stack allows sns:Publish at all. -/
theorem C10_topic_publish_only_gamelift (topicArn functionArn : String) :
    flexMatchEventsTopicPolicy topicArn =
      [ { actions := ["sns:Publish"], effect := Effect.allow
          principals := ["gamelift.amazonaws.com"], resources := [topicArn] } ] ∧
    ∀ s ∈ stackPolicyStatements topicArn functionArn,
      "sns:Publish" ∈ s.actions → s.effect = Effect.allow →
        s.principals = ["gamelift.amazonaws.com"] ∧ s.resources = [topicArn] := by
  refine ⟨rfl, ?_⟩
  intro s hs hact heff
  simp only [stackPolicyStatements, flexMatchEventsTopicPolicy, lambdaBasicPolicy,
    logsManagementPolicy, gameliftStartMatchmakingPolicy,
    invokeRequestMatchmakingPermission, List.cons_append, List.nil_append,
    List.mem_cons, List.not_mem_nil, or_false] at hs
  rcases hs with h | h | h | h | h <;> subst h
  · simp at hact
  · simp at hact
  · simp at hact
  · simp at hact
  · exact ⟨rfl, rfl⟩

/-- C10 witness: at a concrete topic ARN and function ARN, the statement of
the topic's resource policy names exactly the gamelift.amazonaws.com
principal and the topic's ARN. -/
theorem C10_topic_publish_only_gamelift_witness :
    ({ actions := ["sns:Publish"], effect := Effect.allow
       principals := ["gamelift.amazonaws.com"]
       resources := ["arn:aws:sns:us-east-1:111122223333:FlexMatchEventsTopic"] } :
        PolicyStatement).principals = ["gamelift.amazonaws.com"] ∧
    ({ actions := ["sns:Publish"], effect := Effect.allow
       principals := ["gamelift.amazonaws.com"]
       resources := ["arn:aws:sns:us-east-1:111122223333:FlexMatchEventsTopic"] } :
        PolicyStatement).resources =
      ["arn:aws:sns:us-east-1:111122223333:FlexMatchEventsTopic"] :=
  (C10_topic_publish_only_gamelift
      "arn:aws:sns:us-east-1:111122223333:FlexMatchEventsTopic"
      "arn:aws:lambda:us-east-1:111122223333:function:RequestMatchmaking").2
    { actions := ["sns:Publish"], effect := Effect.allow
      principals := ["gamelift.amazonaws.com"]
      resources := ["arn:aws:sns:us-east-1:111122223333:FlexMatchEventsTopic"] }
    (by decide) (by decide) rfl

end GameLiftBackend
